import Mathlib

/-!
Verification development for the BlueStar workflow-orchestration core
(`src/bluestar/agents`): a shallow embedding of the agent state, the two
conditional edges of the workflow graph, the synthesis / human-checkpoint /
publishing-decision nodes, and the input validator, with theorems settling the
specification claims about routing, iteration bounds, error handling and
field framing.

Modelling conventions:
- Python strings are Lean `String`s; character-level operations (`strip`,
  `lower`, hex tests) are defined on `List Char`.
- Python `Optional[T]` is `Option T`; object truthiness (`not x`) on optional
  model objects is `Option.isNone` (a pydantic/dataclass instance is always
  truthy, only `None` is falsy).
- The `datetime` values of the source (`start_time`, `workflow_id`, the values
  of `step_timestamps`) are irrelevant to every claim; `step_timestamps` is
  modelled by its ordered key list (Python `dict` keeps insertion order and
  `d[k] = v` adds `k` at the end when absent).
- Interactive `input()` in a node is modelled by threading an explicit list of
  console lines; a node that would block forever (input exhausted before a
  valid entry) returns `none`.
- A generative-model invocation is external: it is passed to the synthesis
  node as an `Except SynthFailure BlogPostOutput` oracle argument, covering
  the exception classes the source catches.
-/

namespace BlueStar

/-! ## String helpers (Python `str.strip`, `str.lower`, `str.split`, …) -/

/-- Characters of a list with leading and trailing whitespace removed
(Python `str.strip()`). -/
def stripList (cs : List Char) : List Char :=
  ((cs.dropWhile Char.isWhitespace).reverse.dropWhile Char.isWhitespace).reverse

/-- Python `s.strip()`. -/
def strip (s : String) : String :=
  String.mk (stripList s.toList)

/-- Python `s.lower()` (ASCII case folding, which covers every string the
source compares after lowering). -/
def lowerStr (s : String) : String :=
  String.mk (s.toList.map Char.toLower)

/-- List version of Python `startswith`. -/
def startsWithL (pat cs : List Char) : Bool :=
  pat.isPrefixOf cs

/-- List version of Python `endswith`. -/
def endsWithL (pat cs : List Char) : Bool :=
  pat.reverse.isPrefixOf cs.reverse

/-- Python `s.split(sep)` for a one-character separator: `""` splits to
`[""]`, separators at the ends produce empty fields. -/
def splitOnChar (sep : Char) : List Char → List (List Char)
  | [] => [[]]
  | c :: cs =>
    let r := splitOnChar sep cs
    if c = sep then
      [] :: r
    else
      match r with
      | [] => [[c]]
      | h :: t => (c :: h) :: t

/-- Fuel-driven worker for `removeAll`: scans left to right, deleting each
occurrence of `pat` (Python `s.replace(pat, "")`).  The fuel is the length of
the scanned list, which bounds the number of steps. -/
def removeAllAux (pat : List Char) : Nat → List Char → List Char
  | 0, cs => cs
  | _ + 1, [] => []
  | fuel + 1, c :: cs =>
    if pat ≠ [] ∧ pat.isPrefixOf (c :: cs) then
      removeAllAux pat fuel ((c :: cs).drop pat.length)
    else
      c :: removeAllAux pat fuel cs

/-- Python `s.replace(pat, "")`: delete every occurrence of `pat`. -/
def removeAll (pat cs : List Char) : List Char :=
  removeAllAux pat cs.length cs

/-- Python `s.strip("/")`: remove leading and trailing slashes. -/
def stripSlashes (cs : List Char) : List Char :=
  ((cs.dropWhile (· = '/')).reverse.dropWhile (· = '/')).reverse

/-- Hexadecimal-character test matching the source regex class
`[0-9a-fA-F]` (`97..102` = `a..f`, `65..70` = `A..F`). -/
def isHexChar (c : Char) : Bool :=
  c.isDigit
    || (decide (97 ≤ c.toNat) && decide (c.toNat ≤ 102))
    || (decide (65 ≤ c.toNat) && decide (c.toNat ≤ 70))

/-! ## Data model (`formats/llm_outputs.py`, `formats/commit_data.py`) -/

/-- Tagged union of content-block kinds of `llm_outputs.py`
(`ParagraphBlock | HeadingBlock | ListBlock | CodeBlock`). -/
inductive ContentBlock where
  | paragraph (content : String)
  | heading (level : Int) (content : String)
  | listBlock (items : List String)
  | code (language : String) (content : String)
  deriving DecidableEq

/-- `BlogPostOutput` of `llm_outputs.py`: the synthesized document. -/
structure BlogPostOutput where
  title : String
  author : String
  date : String
  tags : List String
  summary : String
  body : List ContentBlock
  deriving DecidableEq

/-- `CommitAnalysis` of `commit_data.py` (the analysis object): categorical
change type, two free-text summaries, three ordered finding lists, a
narrative angle. -/
structure CommitAnalysis where
  change_type : String
  technical_summary : String
  business_impact : String
  key_changes : List String
  technical_details : List String
  affected_components : List String
  narrative_angle : Option String
  deriving DecidableEq

/-- `CommitData` of `commit_data.py` (fetched change record); the optional
project-context bundle is abstracted to a key-value list. -/
structure CommitData where
  sha : String
  message : String
  author : String
  author_email : String
  date : String
  files_changed : List String
  total_additions : Int
  total_deletions : Int
  repository_path : String
  project_structure : Option (List (String × String))
  deriving DecidableEq

/-- `AgentState` of `agents/state.py`: the single mutable record threaded
through every stage.  `step_timestamps` is modelled by its ordered key list.

The `publishing_decision` field is Modelled from the spec: `state.py` under
`src/` does not declare the terminal-decision field, although
`publishing_decision_node`, `cli.py` and the test suite all read and write
`state.publishing_decision`; the spec (§3) describes it as "an enumerated
publishing choice (one of four sinks, or unset)". -/
structure AgentState where
  repo_identifier : String
  commit_sha : String
  user_instructions : Option String := none
  commit_data : Option CommitData := none
  commit_analysis : Option CommitAnalysis := none
  blog_post : Option BlogPostOutput := none
  max_iterations : Int := 3
  synthesis_iteration_count : Int := 0
  user_satisfied : Option Bool := none
  user_feedback : Option String := none
  context_assessment : Option String := none
  context_assessment_details : Option String := none
  needs_enhanced_context : Bool := false
  current_step : String := "input_validation"
  processing_complete : Bool := false
  errors : List String := []
  publish_to_blog : Option Bool := none
  publishing_decision : Option String := none
  step_timestamps : List String := []
  deriving DecidableEq

/-! ## State methods (`agents/state.py`) -/

/-- `AgentState.add_error`: append one user-facing message. -/
def add_error (s : AgentState) (error_message : String) : AgentState :=
  { s with errors := s.errors ++ [error_message] }

/-- Key-set update of `step_timestamps[step_name] = now`: a fresh key is
appended, an existing key only has its (abstracted) value refreshed. -/
def markKeys (keys : List String) (k : String) : List String :=
  if k ∈ keys then keys else keys ++ [k]

/-- `AgentState.mark_step_complete`: record the completion timestamp key and
advance the current-step label. -/
def mark_step_complete (s : AgentState) (step_name : String) : AgentState :=
  { s with step_timestamps := markKeys s.step_timestamps step_name
         , current_step := step_name }

/-- Test of `AgentState.get_current_iteration_count`'s comprehension:
`step.startswith("content_synthesis")`. -/
def isSynthKey (k : String) : Bool :=
  startsWithL "content_synthesis".toList k.toList

/-- `AgentState.get_current_iteration_count`: number of recorded step keys
starting with `"content_synthesis"`. -/
def get_current_iteration_count (s : AgentState) : Nat :=
  (s.step_timestamps.filter isSynthKey).length

/-- `AgentState.can_iterate`: timestamps-derived count strictly below the
configured maximum. -/
def can_iterate (s : AgentState) : Bool :=
  decide ((get_current_iteration_count s : Int) < s.max_iterations)

/-! ## Conditional edges (`agents/graph.py`) -/

/-- Codomain of the loop edge `should_continue_iteration`. -/
inductive IterRoute where
  | content_synthesizer
  | publishing_decision
  deriving DecidableEq

/-- `should_continue_iteration` of `graph.py`: satisfaction `True` exits the
loop, satisfaction `False` with iteration budget loops back, everything else
exits. -/
def should_continue_iteration (s : AgentState) : IterRoute :=
  if s.user_satisfied = some true then
    .publishing_decision
  else if s.user_satisfied = some false ∧ can_iterate s = true then
    .content_synthesizer
  else
    .publishing_decision

/-- Codomain of the decision edge `should_publish_blog` (`END` is the graph
terminal). -/
inductive PublishRoute where
  | blog_publisher
  | terminalEnd
  deriving DecidableEq

/-- `should_publish_blog` of `graph.py`: routes on `publish_to_blog is True`
only. -/
def should_publish_blog (s : AgentState) : PublishRoute :=
  if s.publish_to_blog = some true then
    .blog_publisher
  else
    .terminalEnd

/-- Loop-edge policy as worded by the spec (§4.1): counter at or past the
maximum exits; else explicit satisfaction exits; else explicit dissatisfaction
under the maximum loops back; any other combination fails safe to the
publish decision.  Stated for comparison with `should_continue_iteration`. -/
def loopEdgeSpec (counter : Nat) (maxIter : Int) (sat : Option Bool) : IterRoute :=
  if (counter : Int) ≥ maxIter then
    .publishing_decision
  else if sat = some true then
    .publishing_decision
  else if sat = some false ∧ (counter : Int) < maxIter then
    .content_synthesizer
  else
    .publishing_decision

/-! ## Content synthesizer node (`agents/nodes/content_synthesizer.py`) -/

/-- Classified outcome of the generation chain, covering the exception
classes caught by `content_synthesizer_node` (`ConfigurationError`,
`LLMError` with rate-limit / timeout / other markers, `ValidationError`,
and the catch-all). -/
inductive SynthFailure where
  | configuration
  | llmRateLimit
  | llmTimeout
  | llmOther
  | validation
  | unexpected
  deriving DecidableEq

/-- `ContentSynthesizerErrorHandler.get_user_message`: translate a classified
failure into the user-facing diagnostic, naming the commit by its first eight
characters. -/
def synthMessage (f : SynthFailure) (commit_sha : String) : String :=
  let commit_short := String.mk (commit_sha.toList.take 8)
  match f with
  | .configuration =>
      "LLM configuration error during content generation for commit "
        ++ commit_short ++ ". Please check your LLM API key and configuration."
  | .llmRateLimit =>
      "LLM API rate limit reached during content generation for commit "
        ++ commit_short ++ ". Please wait a few minutes and try again."
  | .llmTimeout =>
      "LLM API request timed out during content generation for commit "
        ++ commit_short ++ ". Please try again."
  | .llmOther =>
      "LLM API error during content generation for commit "
        ++ commit_short ++ ". This may be a temporary issue. Please try again."
  | .validation =>
      "LLM returned an invalid format for the blog post for commit "
        ++ commit_short ++ ". This may indicate a temporary LLM issue. Please try again."
  | .unexpected =>
      "An unexpected error occurred during content generation for commit "
        ++ commit_short ++ ". Please try again or contact support."

/-- `content_synthesizer_node`: with the generation chain's outcome passed as
the oracle `llm`.  Missing analysis or commit data appends one diagnostic and
skips generation; a successful generation stores the post, bumps the counter
and clears feedback; a failed generation appends the classified diagnostic.
Every branch marks the step `content_synthesis_<iteration>` complete. -/
def content_synthesizer_node (llm : Except SynthFailure BlogPostOutput)
    (s : AgentState) : AgentState :=
  let iteration := s.synthesis_iteration_count + 1
  let stepKey := "content_synthesis_" ++ toString iteration
  if s.commit_analysis.isNone ∨ s.commit_data.isNone then
    mark_step_complete
      (add_error s "ContentSynthesizer requires commit analysis and data. Ensure previous nodes ran successfully.")
      stepKey
  else
    match llm with
    | .ok post =>
        mark_step_complete
          { s with blog_post := some post
                 , synthesis_iteration_count := iteration
                 , user_feedback := none }
          stepKey
    | .error f =>
        mark_step_complete (add_error s (synthMessage f s.commit_sha)) stepKey

/-! ## Human refinement node (`agents/nodes/human_refinement.py`) -/

/-- Console loop of `human_refinement_node`: repeat the satisfaction prompt
until a `y`/`yes` or `n`/`no` answer (lowered and stripped) arrives; a `no`
consumes one further line as the feedback text (stripped).  Returns the
recorded satisfaction outcome (`none` for satisfied, `some feedback` for
dissatisfied) and the remaining console lines, or `none` when the console is
exhausted first (the source would block). -/
def readSatisfaction : List String → Option (Option String × List String)
  | [] => none
  | ans :: rest =>
    let a := strip (lowerStr ans)
    if a = "y" ∨ a = "yes" then
      some (none, rest)
    else if a = "n" ∨ a = "no" then
      match rest with
      | [] => none
      | fb :: rest2 => some (some (strip fb), rest2)
    else
      readSatisfaction rest

/-- `human_refinement_node`: without a blog post it only records a diagnostic;
otherwise it records the satisfaction flag (clearing feedback when satisfied,
storing it when not) and increments `synthesis_iteration_count` once. -/
def human_refinement_node (inputs : List String) (s : AgentState) :
    Option (AgentState × List String) :=
  if s.blog_post.isNone then
    some ({ s with errors := s.errors ++ ["HumanRefinementNode: No blog post found in state to review."] },
          inputs)
  else
    match readSatisfaction inputs with
    | none => none
    | some (none, rest) =>
        some ({ s with user_satisfied := some true
                     , user_feedback := none
                     , synthesis_iteration_count := s.synthesis_iteration_count + 1 },
              rest)
    | some (some fb, rest) =>
        some ({ s with user_satisfied := some false
                     , user_feedback := some fb
                     , synthesis_iteration_count := s.synthesis_iteration_count + 1 },
              rest)

/-! ## Publishing decision node (`agents/nodes/publishing_decision.py`) -/

/-- The four recognized publishing-choice tokens. -/
def validChoices : List String := ["ghost", "notion", "local", "discard"]

/-- Menu loop of `publishing_decision_node`: repeat until a stripped entry in
`1..4` arrives, mapping it to its token; `none` when the console is exhausted
first (the source would block). -/
def readPublishChoice : List String → Option (String × List String)
  | [] => none
  | ans :: rest =>
    if strip ans = "1" then some ("ghost", rest)
    else if strip ans = "2" then some ("notion", rest)
    else if strip ans = "3" then some ("local", rest)
    else if strip ans = "4" then some ("discard", rest)
    else readPublishChoice rest

/-- `publishing_decision_node`: entered without truthy satisfaction it only
appends a safeguard diagnostic; with a preselected valid choice it skips the
menu and keeps the choice; otherwise it runs the menu loop and records the
selected token, marking the step complete. -/
def publishing_decision_node (inputs : List String) (s : AgentState) :
    Option (AgentState × List String) :=
  if ¬ s.user_satisfied = some true then
    some (add_error s "PublishingDecisionNode: Cannot proceed without user satisfaction.", inputs)
  else if (match s.publishing_decision with
           | some c => validChoices.contains c
           | none => false) = true then
    some (mark_step_complete s "publishing_decision", inputs)
  else
    match readPublishChoice inputs with
    | none => none
    | some (c, rest) =>
        some (mark_step_complete { s with publishing_decision := some c } "publishing_decision",
              rest)

/-! ## Input validator node (`agents/nodes/input_validator.py`,
`tools/github_client.py`) -/

/-- `GitHubClient.parse_repo_identifier`: strip a GitHub URL scheme, strip a
`.git` suffix, then require exactly an `owner/repo` shape; otherwise raise
`RepositoryError` (modelled as `Except.error` with the source message). -/
def parse_repo_identifier (repo_identifier : String) : Except String (String × String) :=
  let cs0 := repo_identifier.toList
  let cs1 :=
    if startsWithL "https://github.com/".toList cs0 then
      removeAll "https://github.com/".toList cs0
    else if startsWithL "github.com/".toList cs0 then
      removeAll "github.com/".toList cs0
    else cs0
  let cs2 :=
    if endsWithL ".git".toList cs1 then cs1.take (cs1.length - 4) else cs1
  let parts := splitOnChar '/' (stripSlashes cs2)
  match parts with
  | [owner, repoName] => .ok (String.mk owner, String.mk repoName)
  | _ =>
      .error ("Invalid repository identifier: " ++ String.mk cs2
        ++ ". Expected format: 'owner/repo' or 'https://github.com/owner/repo'")

/-- `validate_repository`: empty or blank input is rejected up front, then the
parser either yields the normalized `owner/repo` or its error message. -/
def validate_repository (repo_identifier : String) : Bool × String × Option String :=
  if repo_identifier.toList = [] ∨ stripList repo_identifier.toList = [] then
    (false, "", some "Repository identifier is required")
  else
    match parse_repo_identifier repo_identifier with
    | .ok (owner, repoName) => (true, owner ++ "/" ++ repoName, none)
    | .error e => (false, "", some e)

/-- `validate_commit_sha`: empty or blank input is rejected, the stripped
value must be exactly forty characters, all hexadecimal; acceptance returns
the stripped value lowercased. -/
def validate_commit_sha (commit_sha : String) : Bool × String × Option String :=
  if commit_sha.toList = [] ∨ stripList commit_sha.toList = [] then
    (false, "", some "Commit SHA is required")
  else if (stripList commit_sha.toList).length ≠ 40 then
    (false, "",
      some ("Commit SHA must be exactly 40 characters (got "
        ++ toString (stripList commit_sha.toList).length ++ ")"))
  else if ¬ (stripList commit_sha.toList).all isHexChar = true then
    (false, "", some "Commit SHA must contain only hexadecimal characters (0-9, a-f, A-F)")
  else
    (true, String.mk ((stripList commit_sha.toList).map Char.toLower), none)

/-- `input_validator_node`: validate both identifiers, replacing each with its
normalized form on success and appending a diagnostic on failure; the step is
marked complete only when both are valid. -/
def input_validator_node (s : AgentState) : AgentState :=
  let rv := validate_repository s.repo_identifier
  let s1 :=
    if rv.1 = true then { s with repo_identifier := rv.2.1 }
    else add_error s ("Repository validation failed: " ++ rv.2.2.getD "")
  let sv := validate_commit_sha s1.commit_sha
  let s2 :=
    if sv.1 = true then { s1 with commit_sha := sv.2.1 }
    else add_error s1 ("Commit SHA validation failed: " ++ sv.2.2.getD "")
  if rv.1 = true ∧ sv.1 = true then
    mark_step_complete s2 "input_validation"
  else
    s2

/-! ## Workflow step machine (the refinement-loop fragment wired by
`create_workflow` in `agents/graph.py`, with the implemented node bodies from
`agents/nodes/`) -/

/-- Node labels of the loop fragment: synthesis, human checkpoint, publish
decision, and the graph terminal. -/
inductive WNode where
  | content_synthesizer
  | human_review_loop
  | publishing_decision
  | terminalEnd
  deriving DecidableEq

/-- Target node of a loop-edge route. -/
def iterTarget : IterRoute → WNode
  | .content_synthesizer => .content_synthesizer
  | .publishing_decision => .publishing_decision

/-- Small-step relation of the loop fragment: the synthesis stage runs with
some generation outcome and hands off to the human checkpoint; the checkpoint
runs on some console input and the loop edge `should_continue_iteration`
routes its result; the publish-decision stage runs on some console input and
reaches the terminal. -/
inductive Step : WNode × AgentState → WNode × AgentState → Prop where
  | synth (llm : Except SynthFailure BlogPostOutput) (s : AgentState) :
      Step (.content_synthesizer, s)
           (.human_review_loop, content_synthesizer_node llm s)
  | review (inputs : List String) (s s' : AgentState) (rest : List String)
      (h : human_refinement_node inputs s = some (s', rest)) :
      Step (.human_review_loop, s)
           (iterTarget (should_continue_iteration s'), s')
  | decision (inputs : List String) (s s' : AgentState) (rest : List String)
      (h : publishing_decision_node inputs s = some (s', rest)) :
      Step (.publishing_decision, s) (.terminalEnd, s')

/-! ## Concrete fixtures -/

/-- Sample analysis object. -/
def sampleAnalysis : CommitAnalysis :=
  { change_type := "feature"
  , technical_summary := "added the refinement loop"
  , business_impact := "faster publishing"
  , key_changes := ["loop"]
  , technical_details := ["edge"]
  , affected_components := ["graph"]
  , narrative_angle := none }

/-- Sample fetched change record. -/
def sampleCommit : CommitData :=
  { sha := "e64997b24625a4e90c39d019d4fd25a37a4b3185"
  , message := "Add refinement loop"
  , author := "dev"
  , author_email := "dev@example.com"
  , date := "2025-01-20T10:30:00Z"
  , files_changed := ["graph.py"]
  , total_additions := 10
  , total_deletions := 2
  , repository_path := "domini04/bluestar"
  , project_structure := none }

/-- Sample synthesized document. -/
def samplePost : BlogPostOutput :=
  { title := "Bounded refinement"
  , author := "dev"
  , date := "2025-01-20"
  , tags := ["workflow"]
  , summary := "How the loop is bounded."
  , body := [ContentBlock.paragraph "The loop edge checks the counter."] }

/-! ## Preservation lemmas -/

/-- Appending an error leaves the timestamp keys untouched. -/
theorem count_add_error (s : AgentState) (m : String) :
    get_current_iteration_count (add_error s m) = get_current_iteration_count s := rfl

/-- Marking one step grows the synthesis-pass count by at most one. -/
theorem count_mark_le (s : AgentState) (k : String) :
    get_current_iteration_count (mark_step_complete s k)
      ≤ get_current_iteration_count s + 1 := by
  unfold mark_step_complete get_current_iteration_count markKeys
  split
  · exact Nat.le_succ _
  · rw [List.filter_append, List.length_append]
    have h : (List.filter isSynthKey [k]).length ≤ 1 := by
      simp only [List.filter_cons, List.filter_nil]
      split <;> simp
    exact Nat.add_le_add_left h _

/-- Marking a step whose name does not start with `content_synthesis` leaves
the synthesis-pass count unchanged. -/
theorem count_mark_not (s : AgentState) (k : String)
    (hk : isSynthKey k = false) :
    get_current_iteration_count (mark_step_complete s k)
      = get_current_iteration_count s := by
  unfold mark_step_complete get_current_iteration_count markKeys
  split
  · rfl
  · rw [List.filter_append]
    simp [List.filter_cons, List.filter_nil, hk]

/-- The synthesis node preserves the identity fields and the configured
maximum, and grows the synthesis-pass count by at most one. -/
theorem synth_preserves (llm : Except SynthFailure BlogPostOutput) (s : AgentState) :
    (content_synthesizer_node llm s).max_iterations = s.max_iterations
    ∧ (content_synthesizer_node llm s).repo_identifier = s.repo_identifier
    ∧ (content_synthesizer_node llm s).commit_sha = s.commit_sha
    ∧ (content_synthesizer_node llm s).user_instructions = s.user_instructions
    ∧ get_current_iteration_count (content_synthesizer_node llm s)
        ≤ get_current_iteration_count s + 1 := by
  unfold content_synthesizer_node
  split
  · exact ⟨rfl, rfl, rfl, rfl, count_mark_le _ _⟩
  · cases llm with
    | ok post => exact ⟨rfl, rfl, rfl, rfl, count_mark_le _ _⟩
    | error f => exact ⟨rfl, rfl, rfl, rfl, count_mark_le _ _⟩

/-- The human checkpoint preserves the timestamp keys, the configured maximum
and the identity fields. -/
theorem review_preserves (inputs : List String) (s s' : AgentState) (rest : List String)
    (h : human_refinement_node inputs s = some (s', rest)) :
    s'.step_timestamps = s.step_timestamps
    ∧ s'.max_iterations = s.max_iterations
    ∧ s'.repo_identifier = s.repo_identifier
    ∧ s'.commit_sha = s.commit_sha
    ∧ s'.user_instructions = s.user_instructions := by
  unfold human_refinement_node at h
  split at h
  · simp only [Option.some.injEq, Prod.mk.injEq] at h
    obtain ⟨h1, -⟩ := h
    subst h1
    exact ⟨rfl, rfl, rfl, rfl, rfl⟩
  · split at h
    · exact absurd h (by simp)
    · simp only [Option.some.injEq, Prod.mk.injEq] at h
      obtain ⟨h1, -⟩ := h
      subst h1
      exact ⟨rfl, rfl, rfl, rfl, rfl⟩
    · simp only [Option.some.injEq, Prod.mk.injEq] at h
      obtain ⟨h1, -⟩ := h
      subst h1
      exact ⟨rfl, rfl, rfl, rfl, rfl⟩

/-- The publish-decision node preserves the synthesis-pass count, the
configured maximum and the identity fields. -/
theorem decision_preserves (inputs : List String) (s s' : AgentState) (rest : List String)
    (h : publishing_decision_node inputs s = some (s', rest)) :
    get_current_iteration_count s' = get_current_iteration_count s
    ∧ s'.max_iterations = s.max_iterations
    ∧ s'.repo_identifier = s.repo_identifier
    ∧ s'.commit_sha = s.commit_sha
    ∧ s'.user_instructions = s.user_instructions := by
  have hk : isSynthKey "publishing_decision" = false := by decide
  unfold publishing_decision_node at h
  split at h
  · simp only [Option.some.injEq, Prod.mk.injEq] at h
    obtain ⟨h1, -⟩ := h
    subst h1
    exact ⟨rfl, rfl, rfl, rfl, rfl⟩
  · split at h
    · simp only [Option.some.injEq, Prod.mk.injEq] at h
      obtain ⟨h1, -⟩ := h
      subst h1
      exact ⟨count_mark_not _ _ hk, rfl, rfl, rfl, rfl⟩
    · split at h
      · exact absurd h (by simp)
      · simp only [Option.some.injEq, Prod.mk.injEq] at h
        obtain ⟨h1, -⟩ := h
        subst h1
        exact ⟨count_mark_not _ _ hk, rfl, rfl, rfl, rfl⟩

/-- A loop-back decision certifies that another iteration is allowed. -/
theorem loopback_lt (s : AgentState)
    (h : should_continue_iteration s = IterRoute.content_synthesizer) :
    (get_current_iteration_count s : Int) < s.max_iterations := by
  unfold should_continue_iteration at h
  split at h
  · exact absurd h (by simp)
  next hcond =>
    split at h
    next hit =>
      have := hit.2
      unfold can_iterate at this
      exact of_decide_eq_true this
    · exact absurd h (by simp)

/-- The menu loop only ever yields one of the four recognized tokens. -/
theorem readPublishChoice_mem (inputs : List String) (c : String) (rest : List String)
    (h : readPublishChoice inputs = some (c, rest)) : c ∈ validChoices := by
  induction inputs with
  | nil => exact absurd h (by simp [readPublishChoice])
  | cons a tl ih =>
    unfold readPublishChoice at h
    split_ifs at h <;>
      first
        | (simp only [Option.some.injEq, Prod.mk.injEq] at h
           obtain ⟨h1, -⟩ := h
           subst h1
           simp [validChoices])
        | exact ih h

/-! ## Claim theorems -/

/-- Witness state for C1: maximum already reached (zero) while the reviewer
is explicitly dissatisfied. -/
def c1w : AgentState :=
  { repo_identifier := "domini04/bluestar"
  , commit_sha := "e64997b24625a4e90c39d019d4fd25a37a4b3185"
  , max_iterations := 0
  , user_satisfied := some false }

/-- C1: the loop-edge decision is a pure, total function of the iteration
counter (the timestamps-derived synthesis-pass count the edge consults), the
configured maximum and the tri-state satisfaction flag, with exactly the
spec's precedence — counter at the maximum exits, explicit satisfaction
exits, explicit dissatisfaction under the maximum loops back, anything else
fails safe to the publish decision — and once the counter reaches the
maximum the decision is never a loop-back, whatever the satisfaction flag. -/
theorem c1_loop_edge_pure_total (s : AgentState) :
    should_continue_iteration s
      = loopEdgeSpec (get_current_iteration_count s) s.max_iterations s.user_satisfied
    ∧ (s.max_iterations ≤ (get_current_iteration_count s : Int) →
        should_continue_iteration s = IterRoute.publishing_decision) := by
  constructor
  · unfold should_continue_iteration loopEdgeSpec can_iterate
    split_ifs <;> simp_all <;> omega
  · intro hmax
    unfold should_continue_iteration
    split_ifs with h1 h2
    · rfl
    · exfalso
      have hlt := of_decide_eq_true h2.2
      omega
    · rfl

/-- Witness for C1 at a concrete state: maximum zero, dissatisfied reviewer,
decision still exits the loop. -/
theorem c1_witness :
    should_continue_iteration c1w = IterRoute.publishing_decision :=
  (c1_loop_edge_pure_total c1w).2 (by decide)

/-- Counterexample state for C2: reviewer satisfied, publishing choice set to
the Ghost token. -/
def c2s : AgentState :=
  { repo_identifier := "domini04/bluestar"
  , commit_sha := "e64997b24625a4e90c39d019d4fd25a37a4b3185"
  , blog_post := some samplePost
  , user_satisfied := some true
  , publishing_decision := some "ghost" }

/-- C2 counterexample: after the publish-decision stage records the valid
token `ghost`, the decision edge `should_publish_blog` still routes to the
graph terminal, not to any publishing sink — the edge inspects only the
`publish_to_blog` boolean, which no implemented node ever sets, so the claim
that each of the four tokens maps to its sink is false on the code. -/
theorem c2_counterexample :
    publishing_decision_node [] c2s
      = some (mark_step_complete c2s "publishing_decision", [])
    ∧ (mark_step_complete c2s "publishing_decision").publishing_decision = some "ghost"
    ∧ should_publish_blog (mark_step_complete c2s "publishing_decision")
        = PublishRoute.terminalEnd := by
  refine ⟨by decide, by decide, by decide⟩

/-- C2 amended: the decision edge is total and routes on the
`publish_to_blog` boolean alone — explicitly `True` goes to the publisher
node, every other value goes to the terminal — and it ignores the four-token
publishing choice entirely. -/
theorem c2_amended_boolean_edge (s : AgentState) (c : Option String) :
    should_publish_blog { s with publishing_decision := c } = should_publish_blog s
    ∧ (s.publish_to_blog = some true →
        should_publish_blog s = PublishRoute.blog_publisher)
    ∧ (¬ s.publish_to_blog = some true →
        should_publish_blog s = PublishRoute.terminalEnd) := by
  refine ⟨rfl, ?_, ?_⟩
  · intro h
    simp [should_publish_blog, h]
  · intro h
    simp [should_publish_blog, h]

/-- Witness for C2's amended statement at the concrete state `c2s`. -/
theorem c2_witness :
    should_publish_blog c2s = PublishRoute.terminalEnd :=
  (c2_amended_boolean_edge c2s none).2.2 (by decide)

/-- Witness state for C3: commit data fetched, analysis object absent. -/
def c3s : AgentState :=
  { repo_identifier := "domini04/bluestar"
  , commit_sha := "e64997b24625a4e90c39d019d4fd25a37a4b3185"
  , commit_data := some sampleCommit }

/-- C3: invoking the synthesis stage on any state without the analysis
object appends exactly the one precondition diagnostic, leaves the document
field exactly as it was (so unset stays unset), performs no generation
(the result is the same for every generation oracle), and still marks the
`content_synthesis_<iteration>` step complete; the embedding is a total
function, matching the source's no-raise contract. -/
theorem c3_missing_analysis_diagnostic (llm : Except SynthFailure BlogPostOutput)
    (s : AgentState) (h : s.commit_analysis = none) :
    (content_synthesizer_node llm s).errors
      = s.errors
        ++ ["ContentSynthesizer requires commit analysis and data. Ensure previous nodes ran successfully."]
    ∧ (content_synthesizer_node llm s).blog_post = s.blog_post
    ∧ ("content_synthesis_" ++ toString (s.synthesis_iteration_count + 1))
        ∈ (content_synthesizer_node llm s).step_timestamps
    ∧ (content_synthesizer_node llm s).current_step
        = "content_synthesis_" ++ toString (s.synthesis_iteration_count + 1) := by
  unfold content_synthesizer_node
  rw [if_pos (by simp [h])]
  refine ⟨rfl, rfl, ?_, rfl⟩
  unfold mark_step_complete markKeys add_error
  split
  · next hmem => exact hmem
  · simp

/-- Witness for C3 at the concrete state `c3s`. -/
theorem c3_witness :
    (content_synthesizer_node (Except.ok samplePost) c3s).errors
      = c3s.errors
        ++ ["ContentSynthesizer requires commit analysis and data. Ensure previous nodes ran successfully."]
    ∧ (content_synthesizer_node (Except.ok samplePost) c3s).blog_post = c3s.blog_post
    ∧ ("content_synthesis_" ++ toString (c3s.synthesis_iteration_count + 1))
        ∈ (content_synthesizer_node (Except.ok samplePost) c3s).step_timestamps
    ∧ (content_synthesizer_node (Except.ok samplePost) c3s).current_step
        = "content_synthesis_" ++ toString (c3s.synthesis_iteration_count + 1) :=
  c3_missing_analysis_diagnostic (Except.ok samplePost) c3s rfl

/-- C10: commit-identifier validation accepts exactly the strings whose
whitespace-stripped form is forty hexadecimal characters, returning that form
lowercased; every rejected input carries a diagnostic message.  The embedding
is a total function, matching the source's no-raise contract. -/
theorem c10_validate_commit_sha_spec (s : String) :
    ((validate_commit_sha s).1 = true
      ↔ (stripList s.toList).length = 40 ∧ (stripList s.toList).all isHexChar = true)
    ∧ ((validate_commit_sha s).1 = true →
        (validate_commit_sha s).2.1
          = String.mk ((stripList s.toList).map Char.toLower))
    ∧ ((validate_commit_sha s).1 = false → (validate_commit_sha s).2.2.isSome = true) := by
  unfold validate_commit_sha
  split_ifs with h1 h2 h3
  · rcases h1 with h | h
    · have heL : stripList s.toList = [] := by rw [h]; rfl
      have heD : stripList s.data = [] := heL
      refine ⟨?_, ?_, ?_⟩ <;> simp [heL, heD]
    · have heD : stripList s.data = [] := h
      refine ⟨?_, ?_, ?_⟩ <;> simp [h, heD]
  · refine ⟨?_, ?_, ?_⟩ <;> simp_all
  · refine ⟨?_, ?_, ?_⟩ <;> simp_all
  · refine ⟨?_, ?_, ?_⟩ <;> simp_all

/-- Witness for C10: a padded, mixed-case forty-hex-character input is
accepted and returned stripped and lowercased. -/
theorem c10_witness :
    (validate_commit_sha "  ABCDEF0123456789ABCDEF0123456789ABCDEF01  ").2.1
      = String.mk ((stripList "  ABCDEF0123456789ABCDEF0123456789ABCDEF01  ".toList).map Char.toLower) :=
  (c10_validate_commit_sha_spec "  ABCDEF0123456789ABCDEF0123456789ABCDEF01  ").2.1 (by decide)

/-- Counterexample state for C5: no blog post in state at the checkpoint. -/
def c5s : AgentState :=
  { repo_identifier := "domini04/bluestar"
  , commit_sha := "e64997b24625a4e90c39d019d4fd25a37a4b3185" }

/-- C5 counterexample: a pass through the human checkpoint with no blog post
completes (recording a diagnostic) without touching the iteration counter, so
the claim that every pass increments the counter exactly once regardless of
the condition encountered is false on the code. -/
theorem c5_counterexample :
    human_refinement_node ["y"] c5s
      = some ({ c5s with errors := c5s.errors
                  ++ ["HumanRefinementNode: No blog post found in state to review."] },
              ["y"])
    ∧ ({ c5s with errors := c5s.errors
          ++ ["HumanRefinementNode: No blog post found in state to review."] }
        : AgentState).synthesis_iteration_count
      = c5s.synthesis_iteration_count := by
  refine ⟨by decide, rfl⟩

/-- C5 amended: every checkpoint pass that starts with a blog post present
increments the iteration counter exactly once, whether the reviewer is
satisfied or dissatisfied; a pass without a blog post leaves the counter
unchanged and records the safeguard diagnostic instead. -/
theorem c5_amended_increment (inputs : List String) (s s' : AgentState) (rest : List String)
    (h : human_refinement_node inputs s = some (s', rest)) :
    (s.blog_post.isSome = true →
      s'.synthesis_iteration_count = s.synthesis_iteration_count + 1)
    ∧ (s.blog_post = none →
      s'.synthesis_iteration_count = s.synthesis_iteration_count
      ∧ s'.errors = s.errors ++ ["HumanRefinementNode: No blog post found in state to review."]) := by
  unfold human_refinement_node at h
  split at h
  next hnone =>
    simp only [Option.some.injEq, Prod.mk.injEq] at h
    obtain ⟨h1, -⟩ := h
    subst h1
    constructor
    · intro hs
      rw [Option.isNone_iff_eq_none] at hnone
      rw [hnone] at hs
      exact absurd hs (by simp)
    · intro _
      exact ⟨rfl, rfl⟩
  next hsome =>
    split at h
    · exact absurd h (by simp)
    · simp only [Option.some.injEq, Prod.mk.injEq] at h
      obtain ⟨h1, -⟩ := h
      subst h1
      refine ⟨fun _ => rfl, fun hn => ?_⟩
      rw [hn] at hsome
      exact absurd rfl hsome
    · simp only [Option.some.injEq, Prod.mk.injEq] at h
      obtain ⟨h1, -⟩ := h
      subst h1
      refine ⟨fun _ => rfl, fun hn => ?_⟩
      rw [hn] at hsome
      exact absurd rfl hsome

/-- Witness state for C5's amended statement: blog post present. -/
def c5sGood : AgentState := { c5s with blog_post := some samplePost }

/-- Checkpoint result for the witness pass: satisfied reviewer. -/
def c5sAfter : AgentState :=
  { c5sGood with
      user_satisfied := some true,
      user_feedback := none,
      synthesis_iteration_count := c5sGood.synthesis_iteration_count + 1 }

/-- Witness for C5's amended statement at a concrete satisfied pass. -/
theorem c5_witness :
    c5sAfter.synthesis_iteration_count = c5sGood.synthesis_iteration_count + 1 :=
  (c5_amended_increment ["y"] c5sGood c5sAfter [] (by decide)).1 (by decide)

/-- Counterexample state for C6: iteration bound hit (three recorded
synthesis passes, maximum three) while the reviewer is dissatisfied. -/
def c6s : AgentState :=
  { repo_identifier := "domini04/bluestar"
  , commit_sha := "e64997b24625a4e90c39d019d4fd25a37a4b3185"
  , blog_post := some samplePost
  , max_iterations := 3
  , user_satisfied := some false
  , user_feedback := some "tighten the intro"
  , step_timestamps := ["content_synthesis_1", "content_synthesis_3", "content_synthesis_5"] }

/-- C6 counterexample: with the iteration bound hit while the reviewer is
dissatisfied, the loop edge does route to the publish-decision stage, but the
stage's satisfaction safeguard fires: it appends an error and records no
choice at all, so the claim that the stage obtains and records a terminal
choice whenever it is reached because the bound was hit is false on the
code. -/
theorem c6_counterexample :
    should_continue_iteration c6s = IterRoute.publishing_decision
    ∧ publishing_decision_node ["1"] c6s
        = some (add_error c6s "PublishingDecisionNode: Cannot proceed without user satisfaction.", ["1"])
    ∧ (add_error c6s "PublishingDecisionNode: Cannot proceed without user satisfaction.").publishing_decision
        = none := by
  refine ⟨by decide, by decide, rfl⟩

/-- C6 amended: whenever the publish-decision stage is reached with the
satisfaction flag explicitly true and completes, the state records exactly
one of the four sink tokens and the stage is marked complete; reached any
other way the stage refuses and records no choice (see the counterexample). -/
theorem c6_amended_choice_when_satisfied (inputs : List String) (s s' : AgentState)
    (rest : List String) (hsat : s.user_satisfied = some true)
    (h : publishing_decision_node inputs s = some (s', rest)) :
    ∃ c, s'.publishing_decision = some c ∧ c ∈ validChoices
      ∧ s'.current_step = "publishing_decision" := by
  unfold publishing_decision_node at h
  rw [if_neg (by simp [hsat])] at h
  split at h
  next hpre =>
    simp only [Option.some.injEq, Prod.mk.injEq] at h
    obtain ⟨h1, -⟩ := h
    subst h1
    rcases hc : s.publishing_decision with _ | c
    · rw [hc] at hpre
      exact absurd hpre (by simp)
    · rw [hc] at hpre
      refine ⟨c, hc, ?_, rfl⟩
      simpa [validChoices] using hpre
  · split at h
    · exact absurd h (by simp)
    next c rest' heq =>
      simp only [Option.some.injEq, Prod.mk.injEq] at h
      obtain ⟨h1, -⟩ := h
      subst h1
      exact ⟨c, rfl, readPublishChoice_mem _ _ _ heq, rfl⟩

/-- Witness state for C6's amended statement: bound hit, reviewer satisfied. -/
def c6sat : AgentState := { c6s with user_satisfied := some true }

/-- Publish-decision result for the witness run: menu answer `2` = Notion. -/
def c6after : AgentState :=
  mark_step_complete { c6sat with publishing_decision := some "notion" } "publishing_decision"

/-- Witness for C6's amended statement at a concrete satisfied run. -/
theorem c6_witness :
    ∃ c, c6after.publishing_decision = some c ∧ c ∈ validChoices
      ∧ c6after.current_step = "publishing_decision" :=
  c6_amended_choice_when_satisfied ["2"] c6sat c6after [] (by decide) (by decide)

/-- C7: a successful refinement pass of the synthesis stage (analysis and
commit data present, prior document and feedback present, generation
succeeds) always leaves the feedback field null, whatever it held before. -/
theorem c7_feedback_cleared (s : AgentState) (post : BlogPostOutput)
    (ca : CommitAnalysis) (cd : CommitData) (fb : String) (bp : BlogPostOutput)
    (hca : s.commit_analysis = some ca) (hcd : s.commit_data = some cd)
    (hfb : s.user_feedback = some fb) (hbp : s.blog_post = some bp) :
    (content_synthesizer_node (Except.ok post) s).user_feedback = none := by
  unfold content_synthesizer_node
  rw [if_neg (by simp [hca, hcd])]
  rfl

/-- Witness state for C7: a mid-loop refinement state with pending
feedback. -/
def c7s : AgentState :=
  { repo_identifier := "domini04/bluestar"
  , commit_sha := "e64997b24625a4e90c39d019d4fd25a37a4b3185"
  , commit_data := some sampleCommit
  , commit_analysis := some sampleAnalysis
  , blog_post := some samplePost
  , user_satisfied := some false
  , user_feedback := some "add benchmarks"
  , synthesis_iteration_count := 2 }

/-- Witness for C7 at the concrete refinement state `c7s`. -/
theorem c7_witness :
    (content_synthesizer_node (Except.ok samplePost) c7s).user_feedback = none :=
  c7_feedback_cleared c7s samplePost sampleAnalysis sampleCommit
    "add benchmarks" samplePost rfl rfl rfl rfl

/-- C8: with a pre-supplied valid publishing choice, the publish-decision
stage completes on every console-input list — including the empty one, so it
never blocks — consumes no input, skips the menu and keeps the supplied
choice unchanged. -/
theorem c8_presupplied_bypass (inputs : List String) (s : AgentState) (c : String)
    (hc : s.publishing_decision = some c) (hv : c ∈ validChoices) :
    ∃ s', publishing_decision_node inputs s = some (s', inputs)
      ∧ s'.publishing_decision = s.publishing_decision := by
  have hcontains : validChoices.contains c = true :=
    List.elem_eq_true_of_mem hv
  unfold publishing_decision_node
  split
  · exact ⟨_, rfl, rfl⟩
  · rw [hc, if_pos hcontains]
    exact ⟨_, rfl, hc⟩

/-- Witness for C8: pre-supplied `ghost` choice, console input present but
untouched. -/
theorem c8_witness :
    ∃ s', publishing_decision_node ["3"] c2s = some (s', ["3"])
      ∧ s'.publishing_decision = c2s.publishing_decision :=
  c8_presupplied_bypass ["3"] c2s "ghost" rfl (by decide)

/-- Counterexample state for C9: identity fields as created, commit
identifier in upper case. -/
def c9s : AgentState :=
  { repo_identifier := "domini04/bluestar"
  , commit_sha := "ABCDEF0123456789ABCDEF0123456789ABCDEF01" }

/-- C9 counterexample: the input-validation stage rewrites the commit
identifier to its normalized (lowercased) form, so the identity fields are
not left unchanged by every stage after creation. -/
theorem c9_counterexample :
    (input_validator_node c9s).commit_sha = "abcdef0123456789abcdef0123456789abcdef01"
    ∧ ¬ (input_validator_node c9s).commit_sha = c9s.commit_sha := by
  refine ⟨by decide, by decide⟩

/-- C9 amended: the identity fields are set at creation and the
input-validation stage alone may replace the repository and commit
identifiers with normalized forms; the synthesis, human-checkpoint and
publish-decision stages leave all three identity fields unchanged, and no
stage (input validation included) ever changes the user instructions. -/
theorem c9_amended_identity_frame :
    (∀ llm s, (content_synthesizer_node llm s).repo_identifier = s.repo_identifier
      ∧ (content_synthesizer_node llm s).commit_sha = s.commit_sha
      ∧ (content_synthesizer_node llm s).user_instructions = s.user_instructions)
    ∧ (∀ inputs s s' rest, human_refinement_node inputs s = some (s', rest) →
        s'.repo_identifier = s.repo_identifier ∧ s'.commit_sha = s.commit_sha
        ∧ s'.user_instructions = s.user_instructions)
    ∧ (∀ inputs s s' rest, publishing_decision_node inputs s = some (s', rest) →
        s'.repo_identifier = s.repo_identifier ∧ s'.commit_sha = s.commit_sha
        ∧ s'.user_instructions = s.user_instructions)
    ∧ (∀ s, (input_validator_node s).user_instructions = s.user_instructions) := by
  refine ⟨?_, ?_, ?_, ?_⟩
  · intro llm s
    obtain ⟨-, h1, h2, h3, -⟩ := synth_preserves llm s
    exact ⟨h1, h2, h3⟩
  · intro inputs s s' rest h
    obtain ⟨-, -, h1, h2, h3⟩ := review_preserves inputs s s' rest h
    exact ⟨h1, h2, h3⟩
  · intro inputs s s' rest h
    obtain ⟨-, -, h1, h2, h3⟩ := decision_preserves inputs s s' rest h
    exact ⟨h1, h2, h3⟩
  · intro s
    simp only [input_validator_node]
    split_ifs <;> rfl

/-- Witness for C9's amended statement: a concrete checkpoint pass keeps all
three identity fields. -/
theorem c9_witness :
    c5sAfter.repo_identifier = c5sGood.repo_identifier
    ∧ c5sAfter.commit_sha = c5sGood.commit_sha
    ∧ c5sAfter.user_instructions = c5sGood.user_instructions :=
  c9_amended_identity_frame.2.1 ["y"] c5sGood c5sAfter [] (by decide)

/-- Entry state for the C4 run: entry-point defaults (maximum three, counter
zero, no recorded steps), analysis and commit data already produced. -/
def c4Init : AgentState :=
  { repo_identifier := "domini04/bluestar"
  , commit_sha := "e64997b24625a4e90c39d019d4fd25a37a4b3185"
  , commit_data := some sampleCommit
  , commit_analysis := some sampleAnalysis }

/-- State after the first synthesis pass of the C4 run. -/
def c4s1 : AgentState := content_synthesizer_node (Except.ok samplePost) c4Init

/-- State after the first checkpoint pass (dissatisfied) of the C4 run. -/
def c4s2 : AgentState :=
  { c4s1 with
      user_satisfied := some false,
      user_feedback := some "shorter",
      synthesis_iteration_count := c4s1.synthesis_iteration_count + 1 }

/-- State after the second synthesis pass of the C4 run. -/
def c4s3 : AgentState := content_synthesizer_node (Except.ok samplePost) c4s2

/-- State after the second checkpoint pass (dissatisfied) of the C4 run. -/
def c4s4 : AgentState :=
  { c4s3 with
      user_satisfied := some false,
      user_feedback := some "more detail",
      synthesis_iteration_count := c4s3.synthesis_iteration_count + 1 }

/-- C4 counterexample: starting from entry-point defaults (counter zero,
maximum three), two dissatisfied loop passes reach a state whose
`synthesis_iteration_count` is four — above the configured maximum — because
both the synthesis stage and the human checkpoint increment that counter, and
the loop edge consults the timestamps-derived pass count instead of it.  So
the claim that the iteration counter never exceeds the configured maximum in
any reachable state is false on the code. -/
theorem c4_counterexample :
    c4Init.synthesis_iteration_count = 0
    ∧ c4Init.max_iterations = 3
    ∧ Relation.ReflTransGen Step (WNode.content_synthesizer, c4Init)
        (WNode.content_synthesizer, c4s4)
    ∧ c4s4.max_iterations = 3
    ∧ c4s4.synthesis_iteration_count = 4 := by
  refine ⟨rfl, rfl, ?_, by decide, by decide⟩
  have h1 : Step (WNode.content_synthesizer, c4Init) (WNode.human_review_loop, c4s1) :=
    Step.synth (Except.ok samplePost) c4Init
  have h2 : Step (WNode.human_review_loop, c4s1) (WNode.content_synthesizer, c4s2) := by
    have e : iterTarget (should_continue_iteration c4s2) = WNode.content_synthesizer := by
      decide
    have h := Step.review ["n", "shorter"] c4s1 c4s2 [] (by decide)
    rw [e] at h
    exact h
  have h3 : Step (WNode.content_synthesizer, c4s2) (WNode.human_review_loop, c4s3) :=
    Step.synth (Except.ok samplePost) c4s2
  have h4 : Step (WNode.human_review_loop, c4s3) (WNode.content_synthesizer, c4s4) := by
    have e : iterTarget (should_continue_iteration c4s4) = WNode.content_synthesizer := by
      decide
    have h := Step.review ["n", "more detail"] c4s3 c4s4 [] (by decide)
    rw [e] at h
    exact h
  exact .head h1 (.head h2 (.head h3 (.single h4)))

/-- Invariant of the refinement loop: the configured maximum is constant, the
timestamps-derived synthesis-pass count never exceeds it, and on entry to the
synthesis node another pass is still allowed. -/
def LoopInv (m : Int) : WNode × AgentState → Prop := fun c =>
  c.2.max_iterations = m
  ∧ (get_current_iteration_count c.2 : Int) ≤ m
  ∧ (c.1 = WNode.content_synthesizer → (get_current_iteration_count c.2 : Int) < m)

/-- One step of the loop fragment preserves `LoopInv`. -/
theorem loopInv_step {a b : WNode × AgentState} {m : Int}
    (hs : Step a b) (ha : LoopInv m a) : LoopInv m b := by
  cases hs with
  | synth llm s =>
    obtain ⟨hm, -, hlt⟩ := ha
    obtain ⟨hmax, -, -, -, hcnt⟩ := synth_preserves llm s
    have hlt' : (get_current_iteration_count s : Int) < m := hlt rfl
    refine ⟨?_, ?_, ?_⟩
    · show (content_synthesizer_node llm s).max_iterations = m
      rw [hmax]
      exact hm
    · show (get_current_iteration_count (content_synthesizer_node llm s) : Int) ≤ m
      omega
    · intro ht
      exact absurd (show WNode.human_review_loop = WNode.content_synthesizer from ht)
        (by decide)
  | review inputs s s' rest h =>
    obtain ⟨hm, hle, -⟩ := ha
    obtain ⟨hts, hmax, -, -, -⟩ := review_preserves inputs s s' rest h
    have hceq : get_current_iteration_count s' = get_current_iteration_count s := by
      unfold get_current_iteration_count
      rw [hts]
    refine ⟨?_, ?_, ?_⟩
    · show s'.max_iterations = m
      rw [hmax]
      exact hm
    · show (get_current_iteration_count s' : Int) ≤ m
      rw [hceq]
      exact hle
    · intro htg
      have htg' : iterTarget (should_continue_iteration s') = WNode.content_synthesizer := htg
      have hroute : should_continue_iteration s' = IterRoute.content_synthesizer := by
        cases hr : should_continue_iteration s'
        · rfl
        · rw [hr] at htg'
          exact absurd htg' (by decide)
      have hlt := loopback_lt s' hroute
      rw [hmax, hm] at hlt
      show (get_current_iteration_count s' : Int) < m
      exact hlt
  | decision inputs s s' rest h =>
    obtain ⟨hm, hle, -⟩ := ha
    obtain ⟨hc, hmax, -, -, -⟩ := decision_preserves inputs s s' rest h
    refine ⟨?_, ?_, ?_⟩
    · show s'.max_iterations = m
      rw [hmax]
      exact hm
    · show (get_current_iteration_count s' : Int) ≤ m
      rw [hc]
      exact hle
    · intro ht
      exact absurd (show WNode.terminalEnd = WNode.content_synthesizer from ht) (by decide)

/-- C4 amended: along every run of the refinement loop started from an entry
state with at least one allowed iteration and no recorded synthesis pass, the
iteration count the loop edge actually enforces — the timestamps-derived
synthesis-pass count — never exceeds the configured maximum, and the maximum
itself never changes; the `synthesis_iteration_count` field is not bounded by
the edge (see the counterexample) because both loop nodes increment it. -/
theorem c4_amended_pass_bound (init : AgentState) (c : WNode × AgentState)
    (hmax : 1 ≤ init.max_iterations)
    (hcount : get_current_iteration_count init = 0)
    (hreach : Relation.ReflTransGen Step (WNode.content_synthesizer, init) c) :
    (get_current_iteration_count c.2 : Int) ≤ init.max_iterations
    ∧ c.2.max_iterations = init.max_iterations := by
  have hinv : LoopInv init.max_iterations c := by
    induction hreach with
    | refl =>
      refine ⟨rfl, ?_, fun _ => ?_⟩
      · rw [hcount]
        omega
      · rw [hcount]
        omega
    | tail hab hbc ih => exact loopInv_step hbc ih
  exact ⟨hinv.2.1, hinv.1⟩

/-- Witness for C4's amended statement at the concrete entry state. -/
theorem c4_witness :
    (get_current_iteration_count c4Init : Int) ≤ c4Init.max_iterations
    ∧ c4Init.max_iterations = c4Init.max_iterations :=
  c4_amended_pass_bound c4Init (WNode.content_synthesizer, c4Init)
    (by decide) (by decide) Relation.ReflTransGen.refl

end BlueStar
